import Mathlib

/-!
Verification of the selection-state engine and the artwork fetch service of
the `growmeorganic-assessment` repository.

The definitions below are a shallow embedding of the TypeScript source:

* `src/src/hooks/useArtworkSelection.ts` — the selection-state engine
  (state model, reducer, query functions, descriptor codec);
* `src/services/artworkService.ts` — the record-fetch service
  (`fetchArtworks` and its error classification).

JavaScript numbers are modelled as `Int` (all values the code manipulates are
integers, and negative inputs are observable: `BULK_SELECT` clamps negative
counts and `UPDATE_TOTAL_RECORDS` accepts an arbitrary total).  JavaScript
`Set` values are modelled as `Finset` (the code only uses membership, add,
delete and size).  JavaScript `Map` values are modelled as functions into
`Option` (the code only uses get, has and set).
-/

namespace GrowMeOrganic

/-- Embeds `SelectionMode` from useArtworkSelection.ts. -/
inductive SelectionMode where
  | NONE
  | EXPLICIT
  | RANGE
  | ALL
deriving DecidableEq, Repr

/-- Embeds `SelectionOverrides` from useArtworkSelection.ts: the four override sets. -/
structure SelectionOverrides where
  includedIds : Finset String
  excludedIds : Finset String
  includedIndices : Finset Int
  excludedIndices : Finset Int
deriving DecidableEq

/-- Embeds `SelectionState` from useArtworkSelection.ts.  The two identity caches
(JavaScript `Map`s) are modelled as functions into `Option`. -/
structure SelectionState where
  mode : SelectionMode
  rangeCount : Int
  totalRecords : Int
  overrides : SelectionOverrides
  indexToIdCache : Int → Option String
  idToIndexCache : String → Option Int

/-- Embeds `SelectionDescriptor` from useArtworkSelection.ts.  Optional fields are
`Option`; the emitted arrays are modelled by the sets they are drawn from
(the code builds them with `Array.from` and only membership is meaningful). -/
structure SelectionDescriptor where
  mode : SelectionMode
  rangeCount : Option Int
  includedIds : Option (Finset String)
  excludedIds : Option (Finset String)
  excludedIndices : Option (Finset Int)

/-- JavaScript `Map.set`, on the function model of maps. -/
def mapSet {α β : Type} [DecidableEq α] (m : α → Option β) (k : α) (v : β) :
    α → Option β :=
  fun x => if x = k then some v else m x

/-- Embeds `createInitialState` from useArtworkSelection.ts. -/
def createInitialState (totalRecords : Int) : SelectionState where
  mode := .NONE
  rangeCount := 0
  totalRecords := totalRecords
  overrides :=
    { includedIds := ∅
      excludedIds := ∅
      includedIndices := ∅
      excludedIndices := ∅ }
  indexToIdCache := fun _ => none
  idToIndexCache := fun _ => none

/-- Embeds `createFreshOverrides` from useArtworkSelection.ts. -/
def createFreshOverrides : SelectionOverrides where
  includedIds := ∅
  excludedIds := ∅
  includedIndices := ∅
  excludedIndices := ∅

/-- Embeds `wouldBaseModeSelect` from useArtworkSelection.ts. -/
def wouldBaseModeSelect (state : SelectionState) (absoluteIndex : Int) : Bool :=
  match state.mode with
  | .ALL => true
  | .RANGE => absoluteIndex < state.rangeCount
  | .NONE => false
  | .EXPLICIT => false

/-- Embeds `checkIsRowSelected` from useArtworkSelection.ts. -/
def checkIsRowSelected (state : SelectionState) (id : String)
    (absoluteIndex : Int) : Bool :=
  if id ∈ state.overrides.excludedIds then false
  else if id ∈ state.overrides.includedIds then true
  else if absoluteIndex ∈ state.overrides.excludedIndices then false
  else if absoluteIndex ∈ state.overrides.includedIndices then true
  else
    match state.mode with
    | .NONE => false
    | .ALL => true
    | .RANGE => absoluteIndex < state.rangeCount
    | .EXPLICIT => false

/-- The indices that a set of ids resolves to through the id-to-index cache
(the `forEach` loops in `calculateSelectedCount` that add `cache.get(id)` for
every id with a known index). -/
def resolvedIndices (ids : Finset String) (cache : String → Option Int) :
    Finset Int :=
  (ids.filter fun id => (cache id).isSome = true).image
    fun id => (cache id).getD 0

/-- The ids of a set that have no entry in the id-to-index cache
(the `unknownIdCount` / `unknownExcludedCount` loops). -/
def unknownIds (ids : Finset String) (cache : String → Option Int) :
    Finset String :=
  ids.filter fun id => cache id = none

/-- Embeds `calculateSelectedCount` from useArtworkSelection.ts. -/
def calculateSelectedCount (state : SelectionState) : Int :=
  let baseCount : Int :=
    match state.mode with
    | .NONE => 0
    | .ALL => state.totalRecords
    | .RANGE => min state.rangeCount state.totalRecords
    | .EXPLICIT => 0
  if state.mode = .EXPLICIT ∨ state.mode = .NONE then
    let includedIndices :=
      state.overrides.includedIndices ∪
        resolvedIndices state.overrides.includedIds state.idToIndexCache
    let unknownIdCount :=
      (unknownIds state.overrides.includedIds state.idToIndexCache).card
    (includedIndices.card : Int) + unknownIdCount
  else
    let excludedIndices :=
      state.overrides.excludedIndices ∪
        resolvedIndices state.overrides.excludedIds state.idToIndexCache
    let unknownExcludedCount :=
      (unknownIds state.overrides.excludedIds state.idToIndexCache).card
    let additionalInclusions :=
      (state.overrides.includedIndices.filter fun index =>
        wouldBaseModeSelect state index = false).card
      + (state.overrides.includedIds.filter fun id =>
          (match state.idToIndexCache id with
           | some index => !(wouldBaseModeSelect state index)
           | none => true) = true).card
    max 0 (baseCount - excludedIndices.card - unknownExcludedCount
      + additionalInclusions)

/-- Embeds `SelectionAction` from useArtworkSelection.ts.  Page rows are
(id, absoluteIndex) pairs. -/
inductive SelectionAction where
  | TOGGLE_ROW (id : String) (absoluteIndex : Int)
  | SELECT_ALL_PAGE (rows : List (String × Int))
  | DESELECT_ALL_PAGE (rows : List (String × Int))
  | BULK_SELECT (count : Int)
  | SELECT_ALL
  | CLEAR_SELECTION
  | UPDATE_TOTAL_RECORDS (total : Int)
  | SYNC_PAGE_SELECTION (rows : List (String × Int)) (selected : Bool)

/-- The mutable accumulator of the page-level `rows.forEach` loops of the
reducer: the cloned overrides plus the two identity caches. -/
structure PageAcc where
  overrides : SelectionOverrides
  indexToIdCache : Int → Option String
  idToIndexCache : String → Option Int

/-- The body of the `rows.forEach` loop shared by `SELECT_ALL_PAGE`
(`selected = true`), `DESELECT_ALL_PAGE` (`selected = false`) and
`SYNC_PAGE_SELECTION` in the reducer: record the row in both caches, clear the
override of the polarity opposite to `selected`, and add an override of the
`selected` polarity only when the base mode of `base` disagrees.  The base-mode
test reads the pre-transition state `base`, exactly as the closures in the
source do. -/
def syncRowStep (base : SelectionState) (selected : Bool) (acc : PageAcc)
    (row : String × Int) : PageAcc :=
  let id := row.1
  let absoluteIndex := row.2
  let acc :=
    { acc with
      indexToIdCache := mapSet acc.indexToIdCache absoluteIndex id
      idToIndexCache := mapSet acc.idToIndexCache id absoluteIndex }
  if selected then
    let ov := acc.overrides
    let ov :=
      { ov with
        excludedIds := ov.excludedIds.erase id
        excludedIndices := ov.excludedIndices.erase absoluteIndex }
    let ov :=
      if wouldBaseModeSelect base absoluteIndex then ov
      else
        { ov with
          includedIds := insert id ov.includedIds
          includedIndices := insert absoluteIndex ov.includedIndices }
    { acc with overrides := ov }
  else
    let ov := acc.overrides
    let ov :=
      { ov with
        includedIds := ov.includedIds.erase id
        includedIndices := ov.includedIndices.erase absoluteIndex }
    let ov :=
      if wouldBaseModeSelect base absoluteIndex then
        { ov with
          excludedIds := insert id ov.excludedIds
          excludedIndices := insert absoluteIndex ov.excludedIndices }
      else ov
    { acc with overrides := ov }

/-- Embeds `selectionReducer` from useArtworkSelection.ts. -/
def selectionReducer (state : SelectionState) (action : SelectionAction) :
    SelectionState :=
  match action with
  | .TOGGLE_ROW id absoluteIndex =>
    let isCurrentlySelected := checkIsRowSelected state id absoluteIndex
    let newIndexToIdCache := mapSet state.indexToIdCache absoluteIndex id
    let newIdToIndexCache := mapSet state.idToIndexCache id absoluteIndex
    let ov := state.overrides
    let newOverrides :=
      if isCurrentlySelected then
        let ov :=
          { ov with
            includedIds := ov.includedIds.erase id
            includedIndices := ov.includedIndices.erase absoluteIndex }
        if wouldBaseModeSelect state absoluteIndex then
          { ov with
            excludedIds := insert id ov.excludedIds
            excludedIndices := insert absoluteIndex ov.excludedIndices }
        else ov
      else
        let ov :=
          { ov with
            excludedIds := ov.excludedIds.erase id
            excludedIndices := ov.excludedIndices.erase absoluteIndex }
        if wouldBaseModeSelect state absoluteIndex then ov
        else
          { ov with
            includedIds := insert id ov.includedIds
            includedIndices := insert absoluteIndex ov.includedIndices }
    let newMode :=
      if state.mode = .NONE ∧ isCurrentlySelected = false then
        SelectionMode.EXPLICIT
      else state.mode
    { state with
      mode := newMode
      overrides := newOverrides
      indexToIdCache := newIndexToIdCache
      idToIndexCache := newIdToIndexCache }
  | .SELECT_ALL_PAGE rows =>
    let acc : PageAcc :=
      { overrides := state.overrides
        indexToIdCache := state.indexToIdCache
        idToIndexCache := state.idToIndexCache }
    let acc := rows.foldl (syncRowStep state true) acc
    let newMode :=
      if state.mode = .NONE then SelectionMode.EXPLICIT else state.mode
    { state with
      mode := newMode
      overrides := acc.overrides
      indexToIdCache := acc.indexToIdCache
      idToIndexCache := acc.idToIndexCache }
  | .DESELECT_ALL_PAGE rows =>
    let acc : PageAcc :=
      { overrides := state.overrides
        indexToIdCache := state.indexToIdCache
        idToIndexCache := state.idToIndexCache }
    let acc := rows.foldl (syncRowStep state false) acc
    { state with
      overrides := acc.overrides
      indexToIdCache := acc.indexToIdCache
      idToIndexCache := acc.idToIndexCache }
  | .BULK_SELECT count =>
    let clampedCount := min (max 0 count) state.totalRecords
    if clampedCount = 0 then
      { state with
        mode := .NONE
        rangeCount := 0
        overrides := createFreshOverrides }
    else
      { state with
        mode := .RANGE
        rangeCount := clampedCount
        overrides := createFreshOverrides }
  | .SELECT_ALL =>
    { state with
      mode := .ALL
      rangeCount := state.totalRecords
      overrides := createFreshOverrides }
  | .CLEAR_SELECTION =>
    { state with
      mode := .NONE
      rangeCount := 0
      overrides := createFreshOverrides }
  | .UPDATE_TOTAL_RECORDS total =>
    let newRangeCount :=
      if state.mode = .RANGE then min state.rangeCount total
      else state.rangeCount
    { state with
      totalRecords := total
      rangeCount := newRangeCount }
  | .SYNC_PAGE_SELECTION rows selected =>
    let acc : PageAcc :=
      { overrides := state.overrides
        indexToIdCache := state.indexToIdCache
        idToIndexCache := state.idToIndexCache }
    let acc := rows.foldl (syncRowStep state selected) acc
    let newMode :=
      if state.mode = .NONE ∧ selected = true then SelectionMode.EXPLICIT
      else state.mode
    { state with
      mode := newMode
      overrides := acc.overrides
      indexToIdCache := acc.indexToIdCache
      idToIndexCache := acc.idToIndexCache }

/-- Embeds `getSelectionDescriptor` from useArtworkSelection.ts. -/
def getSelectionDescriptor (state : SelectionState) : SelectionDescriptor :=
  match state.mode with
  | .RANGE =>
    { mode := .RANGE
      rangeCount := some state.rangeCount
      includedIds := none
      excludedIds :=
        if 0 < state.overrides.excludedIds.card then
          some state.overrides.excludedIds
        else none
      excludedIndices :=
        if 0 < state.overrides.excludedIndices.card then
          some state.overrides.excludedIndices
        else none }
  | .ALL =>
    { mode := .ALL
      rangeCount := none
      includedIds := none
      excludedIds :=
        if 0 < state.overrides.excludedIds.card then
          some state.overrides.excludedIds
        else none
      excludedIndices := none }
  | .EXPLICIT =>
    { mode := .EXPLICIT
      rangeCount := none
      includedIds := some state.overrides.includedIds
      excludedIds := none
      excludedIndices := none }
  | .NONE =>
    { mode := .NONE
      rangeCount := none
      includedIds := none
      excludedIds := none
      excludedIndices := none }

/-- Run a list of actions through the reducer, first action first. -/
def applyActions (init : SelectionState) (actions : List SelectionAction) :
    SelectionState :=
  actions.foldl selectionReducer init

/-- A selection state is reachable when some sequence of engine commands
produces it from a fresh state. -/
def Reachable (s : SelectionState) : Prop :=
  ∃ (total : Int) (actions : List SelectionAction),
    s = applyActions (createInitialState total) actions

/-! ## The artwork fetch service (src/services/artworkService.ts) -/

/-- The `pagination` object of `ArtworkAPIResponse` (src/utils/types.ts). -/
structure Pagination where
  total : Int
  limit : Int
  offset : Int
  total_pages : Int
  current_page : Int
deriving DecidableEq, Repr

/-- Embeds `ArtworkData` from src/utils/types.ts (nullable fields are `Option`). -/
structure ArtworkData where
  id : Int
  title : String
  place_of_origin : Option String
  artist_titles : List String
  inscriptions : Option String
  date_start : Option Int
  date_end : Option Int
deriving DecidableEq, Repr

/-- The runtime shape of a parsed response body: `response.json()` may return
an object in which the `data` or `pagination` field is absent, which the
service checks for before returning.  A missing field is `none`. -/
structure ParsedBody where
  data : Option (List ArtworkData)
  pagination : Option Pagination
deriving DecidableEq, Repr

/-- The outcome of `response.json()`: the body may fail to parse at all, or
parse to `null` (`none`), or parse to an object. -/
inductive BodyOutcome where
  | parseFailure
  | parsed (body : Option ParsedBody)
deriving DecidableEq, Repr

/-- The outcome of the `fetch` call: the request itself may fail, or an HTTP
response arrives carrying a status, the `ok` flag, a status text and a body.
This is the external-world input of `fetchArtworks`. -/
inductive FetchOutcome where
  | networkFailure
  | response (status : Int) (ok : Bool) (statusText : String)
      (body : BodyOutcome)
deriving DecidableEq, Repr

/-- Embeds `ArtworkServiceError` from artworkService.ts (the opaque `cause` payload
is dropped: only the message and status code are ever observed). -/
structure ArtworkServiceError where
  message : String
  statusCode : Option Int
deriving DecidableEq, Repr

def pageErrorMessage : String := "Page number must be at least 1"

def limitErrorMessage : String := "Limit must be between 1 and 100"

def networkErrorMessage : String :=
  "Network error: Unable to connect to the Art Institute of Chicago API"

def parseErrorMessage : String :=
  "Parse Error: Failed to parse API response as JSON"

def invalidResponseMessage : String :=
  "Invalid Response: API response does not match expected format"

/-- The `switch (response.status)` of artworkService.ts: the message attached
to a non-ok HTTP response. -/
def httpErrorMessage (status : Int) (statusText : String) : String :=
  let st := if statusText = "" then "Unknown error" else statusText
  if status = 400 then "Bad Request: Invalid parameters sent to API"
  else if status = 404 then "Not Found: The requested resource does not exist"
  else if status = 429 then
    "Rate Limited: Too many requests. Please try again later"
  else if status = 500 ∨ status = 502 ∨ status = 503 ∨ status = 504 then
    "Server Error: The Art Institute of Chicago API is temporarily unavailable"
  else "API Error: " ++ toString status ++ " " ++ st

/-- Embeds `fetchArtworks` from artworkService.ts, as a function of the page, the
limit and the outcome of the network interaction.  Every failure is an
`ArtworkServiceError` on the `Except` error channel; success returns the
parsed body unchanged. -/
def fetchArtworks (page limit : Int) (outcome : FetchOutcome) :
    Except ArtworkServiceError ParsedBody :=
  if page < 1 then .error ⟨pageErrorMessage, none⟩
  else if limit < 1 ∨ 100 < limit then .error ⟨limitErrorMessage, none⟩
  else
    match outcome with
    | .networkFailure => .error ⟨networkErrorMessage, none⟩
    | .response status ok statusText body =>
      if ok = false then
        .error ⟨httpErrorMessage status statusText, some status⟩
      else
        match body with
        | .parseFailure => .error ⟨parseErrorMessage, none⟩
        | .parsed none => .error ⟨invalidResponseMessage, none⟩
        | .parsed (some b) =>
          if b.data = none ∨ b.pagination = none then
            .error ⟨invalidResponseMessage, none⟩
          else .ok b

/-- The failure condition of the network interaction as the claim states it:
the request fails, the response is not ok, the body fails to parse as JSON,
or the parsed body lacks the data or pagination fields (a `null` body lacks
both). -/
def fetchFailureCondition (outcome : FetchOutcome) : Prop :=
  match outcome with
  | .networkFailure => True
  | .response _ ok _ body =>
    ok = false ∨
      match body with
      | .parseFailure => True
      | .parsed none => True
      | .parsed (some b) => b.data = none ∨ b.pagination = none

/-! ## Specification-side definitions

These definitions follow the wording of the specification (not the source);
they exist to be compared against the source-derived definitions above. -/

/-- The membership query as the spec words it: precedence order excludedIds,
then includedIds, then excludedIndices, then includedIndices, then the
base-mode default NONE→false, ALL→true, RANGE(n)→index < n, EXPLICIT→false. -/
def isSelectedSpec (state : SelectionState) (id : String) (i : Int) : Bool :=
  if id ∈ state.overrides.excludedIds then false
  else if id ∈ state.overrides.includedIds then true
  else if i ∈ state.overrides.excludedIndices then false
  else if i ∈ state.overrides.includedIndices then true
  else
    match state.mode with
    | .NONE => false
    | .ALL => true
    | .RANGE => i < state.rangeCount
    | .EXPLICIT => false

/-- The TOGGLE transition as the spec words it: compute the new value as the
flip of the current membership, remove the record from the override sets of
the opposite polarity, add it to both override sets of the new polarity only
when the base-mode default disagrees with the new value, record the pair in
both identity caches unconditionally, and promote NONE to EXPLICIT when the
record becomes selected. -/
def toggleSpec (s : SelectionState) (id : String) (i : Int) : SelectionState :=
  let newValue := !checkIsRowSelected s id i
  let base := wouldBaseModeSelect s i
  let ov := s.overrides
  let ov :=
    if newValue then
      { ov with
        excludedIds := ov.excludedIds.erase id
        excludedIndices := ov.excludedIndices.erase i }
    else
      { ov with
        includedIds := ov.includedIds.erase id
        includedIndices := ov.includedIndices.erase i }
  let ov :=
    if base ≠ newValue then
      if newValue then
        { ov with
          includedIds := insert id ov.includedIds
          includedIndices := insert i ov.includedIndices }
      else
        { ov with
          excludedIds := insert id ov.excludedIds
          excludedIndices := insert i ov.excludedIndices }
    else ov
  { s with
    mode := if s.mode = .NONE ∧ newValue then .EXPLICIT else s.mode
    overrides := ov
    indexToIdCache := mapSet s.indexToIdCache i id
    idToIndexCache := mapSet s.idToIndexCache id i }

/-- Modelled from the spec: reconstructing membership from the descriptor
alone, using only the fields `toDescriptor()` emits per mode — NONE selects
nothing; ALL selects everything not in the emitted excluded ids; EXPLICIT
selects exactly the emitted included ids; RANGE selects indices below the
emitted range count unless the record is in an emitted excluded override.
An absent field means no override of that kind. -/
def descriptorSelects (d : SelectionDescriptor) (id : String) (i : Int) :
    Bool :=
  match d.mode with
  | .NONE => false
  | .ALL => if id ∈ d.excludedIds.getD ∅ then false else true
  | .EXPLICIT => if id ∈ d.includedIds.getD ∅ then true else false
  | .RANGE =>
    if id ∈ d.excludedIds.getD ∅ then false
    else if i ∈ d.excludedIndices.getD ∅ then false
    else decide (i < d.rangeCount.getD 0)

/-! ## The inductive invariant of the reducer -/

/-- The inductive invariant maintained by `selectionReducer`: under NONE or
EXPLICIT the excluded override sets are empty, a NONE state is pristine, an
ALL state has no included overrides, and each id- or index-keyed pair of
override sets is disjoint. -/
def GoodState (s : SelectionState) : Prop :=
  (s.mode = .NONE ∨ s.mode = .EXPLICIT →
    s.overrides.excludedIds = ∅ ∧ s.overrides.excludedIndices = ∅) ∧
  (s.mode = .NONE →
    s.overrides.includedIds = ∅ ∧ s.overrides.includedIndices = ∅ ∧
      s.rangeCount = 0) ∧
  (s.mode = .ALL →
    s.overrides.includedIds = ∅ ∧ s.overrides.includedIndices = ∅) ∧
  s.overrides.includedIds ∩ s.overrides.excludedIds = ∅ ∧
  s.overrides.includedIndices ∩ s.overrides.excludedIndices = ∅

/-! ## Concrete states used by counterexamples and witnesses -/

/-- Toggle one record, then shrink the total to zero: the count exceeds the
total. -/
def cexCountState : SelectionState :=
  applyActions (createInitialState 5)
    [.TOGGLE_ROW "a" 0, .UPDATE_TOTAL_RECORDS 0]

/-- Exclude a record under RANGE, shrink the range, then toggle another
record at the same index: the excluded id of the first record stays while its
cached index becomes an included index. -/
def cexPairState : SelectionState :=
  applyActions (createInitialState 10)
    [.BULK_SELECT 5, .TOGGLE_ROW "a" 2, .UPDATE_TOTAL_RECORDS 1,
     .TOGGLE_ROW "x" 2]

/-- Two toggles of the same id at different indices leave an included index
with no matching included id. -/
def cexToggleBefore : SelectionState :=
  applyActions (createInitialState 10)
    [.TOGGLE_ROW "a" 0, .TOGGLE_ROW "a" 1]

/-- Double-toggling a fresh id at the orphaned index does not restore the
override sets. -/
def cexToggleAfter : SelectionState :=
  applyActions cexToggleBefore [.TOGGLE_ROW "b" 0, .TOGGLE_ROW "b" 0]

/-- A reachable state with a negative total (UPDATE_TOTAL accepts any
total). -/
def cexNegTotalPre : SelectionState :=
  applyActions (createInitialState 10) [.UPDATE_TOTAL_RECORDS (-1)]

/-- Bulk-selecting five records on the negative-total state. -/
def cexNegTotalState : SelectionState :=
  selectionReducer cexNegTotalPre (.BULK_SELECT 5)

/-- A RANGE state carrying an included override, which the descriptor
drops. -/
def cexDescriptorState : SelectionState :=
  applyActions (createInitialState 10) [.BULK_SELECT 5, .TOGGLE_ROW "a" 7]

/-- Scenario A of the spec: select all, then toggle one record off. -/
def witScenarioA : SelectionState :=
  applyActions (createInitialState 1000) [.SELECT_ALL, .TOGGLE_ROW "7" 6]

/-- A small EXPLICIT state with one included record. -/
def witToggleState : SelectionState :=
  applyActions (createInitialState 10) [.TOGGLE_ROW "a" 0]

/-- A well-formed parsed response body used by the fetch witness. -/
def witBody : ParsedBody where
  data := some []
  pagination := some ⟨129000, 12, 0, 10750, 1⟩

/-! ## Helper lemmas -/

lemma wouldBaseModeSelect_none_explicit (s : SelectionState)
    (h : s.mode = .NONE ∨ s.mode = .EXPLICIT) (i : Int) :
    wouldBaseModeSelect s i = false := by
  rcases h with h | h <;> simp [wouldBaseModeSelect, h]

lemma wouldBaseModeSelect_all (s : SelectionState) (h : s.mode = .ALL)
    (i : Int) : wouldBaseModeSelect s i = true := by
  simp [wouldBaseModeSelect, h]

/-- Toggling never changes the base-mode verdict: the range count is
untouched and the only possible mode change is NONE to EXPLICIT, whose
defaults agree. -/
lemma wouldBaseModeSelect_toggle (s : SelectionState) (id : String)
    (i j : Int) :
    wouldBaseModeSelect (selectionReducer s (.TOGGLE_ROW id i)) j
      = wouldBaseModeSelect s j := by
  by_cases hm : s.mode = .NONE ∧ checkIsRowSelected s id i = false
  · simp [selectionReducer, wouldBaseModeSelect, hm, hm.1]
  · simp [selectionReducer, wouldBaseModeSelect, hm]

/-- The flip property of a single toggle, for every state. -/
lemma checkIsRowSelected_toggle (s : SelectionState) (id : String) (i : Int) :
    checkIsRowSelected (selectionReducer s (.TOGGLE_ROW id i)) id i
      = !checkIsRowSelected s id i := by
  obtain ⟨m, rc, tot, ⟨incl, excl, inclIdx, exclIdx⟩, c1, c2⟩ := s
  by_cases h1 : id ∈ excl <;> by_cases h2 : id ∈ incl <;>
    by_cases h3 : i ∈ exclIdx <;> by_cases h4 : i ∈ inclIdx <;>
    cases m <;>
    simp [selectionReducer, checkIsRowSelected, wouldBaseModeSelect,
      h1, h2, h3, h4, Finset.mem_insert, Finset.mem_erase] <;>
    first
      | tauto
      | (by_cases h5 : i < rc <;> simp [h5] <;> simp_all)

/-! ## C1 -/

/-- C1: the membership query consults the overrides in the exact precedence
order excludedIds, includedIds, excludedIndices, includedIndices, and
otherwise returns the base-mode default (NONE false, ALL true, RANGE the
range test, EXPLICIT false): the source query coincides with the query the
spec describes, on every state and record. -/
theorem checkIsRowSelected_matches_spec (s : SelectionState) (id : String)
    (i : Int) : checkIsRowSelected s id i = isSelectedSpec s id i := rfl

/-! ## C2 -/

/-- C2: the TOGGLE command equals the spec transition — remove the record
from the override sets of the opposite polarity, add it to both override
sets of the new polarity exactly when the base-mode default disagrees with
the new value, record the pair in the identity caches unconditionally, and
promote NONE to EXPLICIT when the record becomes selected — and it flips the
effective selection of the record. -/
theorem toggleRow_matches_spec :
    (∀ (s : SelectionState) (id : String) (i : Int),
      selectionReducer s (.TOGGLE_ROW id i) = toggleSpec s id i) ∧
    (∀ (s : SelectionState) (id : String) (i : Int),
      checkIsRowSelected (selectionReducer s (.TOGGLE_ROW id i)) id i
        = !checkIsRowSelected s id i) := by
  constructor
  · intro s id i
    cases hsel : checkIsRowSelected s id i <;>
      cases hb : wouldBaseModeSelect s i <;>
      simp [selectionReducer, toggleSpec, hsel, hb]
  · exact checkIsRowSelected_toggle

/-! ## C3 -/

/-- C3 (amended): the aggregate count is never negative, on every state —
in particular on every reachable state.  The upper bound of the original
claim does not hold; see the counterexample. -/
theorem selectedCount_nonneg (s : SelectionState) :
    0 ≤ calculateSelectedCount s := by
  unfold calculateSelectedCount
  by_cases h : s.mode = .EXPLICIT ∨ s.mode = .NONE <;> simp [h]
  positivity

/-- C3 counterexample: from a fresh state with five records, toggling one
record on and then updating the total to zero is a reachable state whose
selected count (one) exceeds its total record count (zero). -/
theorem selectedCount_upper_bound_cex :
    Reachable cexCountState ∧
      ¬ calculateSelectedCount cexCountState ≤ cexCountState.totalRecords :=
  ⟨⟨5, _, rfl⟩, by decide⟩

/-! ## C8 -/

/-- C8: UPDATE_TOTAL sets totalRecords to the new total, replaces the range
count by min(rangeCount, newTotal) exactly when the mode is RANGE, and leaves
the mode, the override sets and both identity caches unchanged; in
particular BULK_SELECT(50) on a total of 1000 gives a count of 50, and a
subsequent UPDATE_TOTAL(30) leaves mode RANGE with range count 30 and a
count of 30. -/
theorem updateTotal_frame :
    (∀ (s : SelectionState) (t : Int),
      (selectionReducer s (.UPDATE_TOTAL_RECORDS t)).totalRecords = t ∧
      (selectionReducer s (.UPDATE_TOTAL_RECORDS t)).rangeCount
        = (if s.mode = .RANGE then min s.rangeCount t else s.rangeCount) ∧
      (selectionReducer s (.UPDATE_TOTAL_RECORDS t)).mode = s.mode ∧
      (selectionReducer s (.UPDATE_TOTAL_RECORDS t)).overrides
        = s.overrides ∧
      (selectionReducer s (.UPDATE_TOTAL_RECORDS t)).indexToIdCache
        = s.indexToIdCache ∧
      (selectionReducer s (.UPDATE_TOTAL_RECORDS t)).idToIndexCache
        = s.idToIndexCache) ∧
    (calculateSelectedCount
        (applyActions (createInitialState 1000) [.BULK_SELECT 50]) = 50 ∧
      (applyActions (createInitialState 1000)
          [.BULK_SELECT 50, .UPDATE_TOTAL_RECORDS 30]).mode = .RANGE ∧
      (applyActions (createInitialState 1000)
          [.BULK_SELECT 50, .UPDATE_TOTAL_RECORDS 30]).rangeCount = 30 ∧
      calculateSelectedCount
        (applyActions (createInitialState 1000)
          [.BULK_SELECT 50, .UPDATE_TOTAL_RECORDS 30]) = 30) := by
  constructor
  · intro s t
    refine ⟨rfl, rfl, rfl, rfl, rfl, rfl⟩
  · exact ⟨by decide, by decide, by decide, by decide⟩

/-! ## Preservation of the inductive invariant -/

lemma foldl_preserve {α β : Type} (f : α → β → α) (P : α → Prop)
    (h : ∀ a b, P a → P (f a b)) :
    ∀ (l : List β) (a : α), P a → P (l.foldl f a) := by
  intro l
  induction l with
  | nil => intro a ha; exact ha
  | cons x xs ih => intro a ha; exact ih _ (h a x ha)

lemma inter_empty_mono {α : Type} [DecidableEq α] {s t u v : Finset α}
    (hs : u ⊆ s) (ht : v ⊆ t) (h : s ∩ t = ∅) : u ∩ v = ∅ := by
  rw [Finset.eq_empty_iff_forall_not_mem] at h ⊢
  intro x hx
  rcases Finset.mem_inter.1 hx with ⟨hx1, hx2⟩
  exact h x (Finset.mem_inter.2 ⟨hs hx1, ht hx2⟩)

lemma erase_insert_inter_empty {α : Type} [DecidableEq α] (a : α)
    {s t : Finset α} (h : s ∩ t = ∅) : (insert a s ∩ t).erase a = ∅ := by
  rw [Finset.eq_empty_iff_forall_not_mem] at h ⊢
  intro x hx
  rcases Finset.mem_erase.1 hx with ⟨hne, hx⟩
  rcases Finset.mem_inter.1 hx with ⟨hx1, hx2⟩
  rcases Finset.mem_insert.1 hx1 with rfl | hx1
  · exact hne rfl
  · exact h x (Finset.mem_inter.2 ⟨hx1, hx2⟩)

/-- The override sets produced by one selecting page-row step. -/
lemma syncRowStep_true_overrides (base : SelectionState) (acc : PageAcc)
    (id : String) (i : Int) :
    (syncRowStep base true acc (id, i)).overrides =
      { includedIds :=
          if wouldBaseModeSelect base i then acc.overrides.includedIds
          else insert id acc.overrides.includedIds
        excludedIds := acc.overrides.excludedIds.erase id
        includedIndices :=
          if wouldBaseModeSelect base i then acc.overrides.includedIndices
          else insert i acc.overrides.includedIndices
        excludedIndices := acc.overrides.excludedIndices.erase i } := by
  cases hb : wouldBaseModeSelect base i <;> simp [syncRowStep, hb]

/-- The override sets produced by one deselecting page-row step. -/
lemma syncRowStep_false_overrides (base : SelectionState) (acc : PageAcc)
    (id : String) (i : Int) :
    (syncRowStep base false acc (id, i)).overrides =
      { includedIds := acc.overrides.includedIds.erase id
        excludedIds :=
          if wouldBaseModeSelect base i then insert id acc.overrides.excludedIds
          else acc.overrides.excludedIds
        includedIndices := acc.overrides.includedIndices.erase i
        excludedIndices :=
          if wouldBaseModeSelect base i then
            insert i acc.overrides.excludedIndices
          else acc.overrides.excludedIndices } := by
  cases hb : wouldBaseModeSelect base i <;> simp [syncRowStep, hb]

/-- One page-row step keeps the included and excluded override sets
disjoint. -/
lemma syncRowStep_disjoint (base : SelectionState) (sel : Bool)
    (acc : PageAcc) (row : String × Int)
    (h1 : acc.overrides.includedIds ∩ acc.overrides.excludedIds = ∅)
    (h2 : acc.overrides.includedIndices ∩ acc.overrides.excludedIndices = ∅) :
    (syncRowStep base sel acc row).overrides.includedIds ∩
        (syncRowStep base sel acc row).overrides.excludedIds = ∅ ∧
      (syncRowStep base sel acc row).overrides.includedIndices ∩
        (syncRowStep base sel acc row).overrides.excludedIndices = ∅ := by
  obtain ⟨id, i⟩ := row
  cases sel <;> cases hb : wouldBaseModeSelect base i <;>
    simp [syncRowStep, hb, h1, h2, Finset.inter_erase, Finset.erase_inter] <;>
    exact ⟨erase_insert_inter_empty id h1, erase_insert_inter_empty i h2⟩

/-- One page-row step keeps the excluded override sets empty, provided it is
a selecting step or the base mode never selects. -/
lemma syncRowStep_excl_empty (base : SelectionState) (sel : Bool)
    (acc : PageAcc) (row : String × Int)
    (hcond : sel = true ∨ wouldBaseModeSelect base row.2 = false)
    (h1 : acc.overrides.excludedIds = ∅)
    (h2 : acc.overrides.excludedIndices = ∅) :
    (syncRowStep base sel acc row).overrides.excludedIds = ∅ ∧
      (syncRowStep base sel acc row).overrides.excludedIndices = ∅ := by
  obtain ⟨id, i⟩ := row
  cases sel
  · rcases hcond with hcond | hcond
    · exact absurd hcond (by simp)
    · rw [syncRowStep_false_overrides]
      simp at hcond
      simp [hcond, h1, h2]
  · rw [syncRowStep_true_overrides]
    simp [h1, h2]

/-- One page-row step keeps the included override sets empty, provided it is
a deselecting step or the base mode always selects. -/
lemma syncRowStep_incl_empty (base : SelectionState) (sel : Bool)
    (acc : PageAcc) (row : String × Int)
    (hcond : sel = false ∨ wouldBaseModeSelect base row.2 = true)
    (h1 : acc.overrides.includedIds = ∅)
    (h2 : acc.overrides.includedIndices = ∅) :
    (syncRowStep base sel acc row).overrides.includedIds = ∅ ∧
      (syncRowStep base sel acc row).overrides.includedIndices = ∅ := by
  obtain ⟨id, i⟩ := row
  cases sel
  · rw [syncRowStep_false_overrides]
    simp [h1, h2]
  · rcases hcond with hcond | hcond
    · exact absurd hcond (by simp)
    · rw [syncRowStep_true_overrides]
      simp [hcond, h1, h2]

/-- A page fold keeps the override sets disjoint. -/
lemma fold_disjoint (base : SelectionState) (sel : Bool)
    (rows : List (String × Int)) (acc : PageAcc)
    (h1 : acc.overrides.includedIds ∩ acc.overrides.excludedIds = ∅)
    (h2 : acc.overrides.includedIndices ∩ acc.overrides.excludedIndices = ∅) :
    (rows.foldl (syncRowStep base sel) acc).overrides.includedIds ∩
        (rows.foldl (syncRowStep base sel) acc).overrides.excludedIds = ∅ ∧
      (rows.foldl (syncRowStep base sel) acc).overrides.includedIndices ∩
        (rows.foldl (syncRowStep base sel) acc).overrides.excludedIndices
          = ∅ := by
  refine foldl_preserve (syncRowStep base sel)
    (fun a => a.overrides.includedIds ∩ a.overrides.excludedIds = ∅ ∧
      a.overrides.includedIndices ∩ a.overrides.excludedIndices = ∅)
    (fun a r hp => syncRowStep_disjoint base sel a r hp.1 hp.2)
    rows acc ⟨h1, h2⟩

/-- A page fold keeps the excluded override sets empty when it is a
selecting fold or the base mode never selects. -/
lemma fold_excl_empty (base : SelectionState) (sel : Bool)
    (rows : List (String × Int)) (acc : PageAcc)
    (hc : sel = true ∨ base.mode = .NONE ∨ base.mode = .EXPLICIT)
    (h1 : acc.overrides.excludedIds = ∅)
    (h2 : acc.overrides.excludedIndices = ∅) :
    (rows.foldl (syncRowStep base sel) acc).overrides.excludedIds = ∅ ∧
      (rows.foldl (syncRowStep base sel) acc).overrides.excludedIndices
        = ∅ := by
  refine foldl_preserve (syncRowStep base sel)
    (fun a => a.overrides.excludedIds = ∅ ∧ a.overrides.excludedIndices = ∅)
    (fun a r hp => syncRowStep_excl_empty base sel a r ?_ hp.1 hp.2)
    rows acc ⟨h1, h2⟩
  rcases hc with hc | hc
  · exact Or.inl hc
  · exact Or.inr (wouldBaseModeSelect_none_explicit base hc r.2)

/-- A page fold keeps the included override sets empty when it is a
deselecting fold or the base mode always selects. -/
lemma fold_incl_empty (base : SelectionState) (sel : Bool)
    (rows : List (String × Int)) (acc : PageAcc)
    (hc : sel = false ∨ base.mode = .ALL)
    (h1 : acc.overrides.includedIds = ∅)
    (h2 : acc.overrides.includedIndices = ∅) :
    (rows.foldl (syncRowStep base sel) acc).overrides.includedIds = ∅ ∧
      (rows.foldl (syncRowStep base sel) acc).overrides.includedIndices
        = ∅ := by
  refine foldl_preserve (syncRowStep base sel)
    (fun a => a.overrides.includedIds = ∅ ∧ a.overrides.includedIndices = ∅)
    (fun a r hp => syncRowStep_incl_empty base sel a r ?_ hp.1 hp.2)
    rows acc ⟨h1, h2⟩
  rcases hc with hc | hc
  · exact Or.inl hc
  · exact Or.inr (wouldBaseModeSelect_all base hc r.2)

/-- A NONE state with empty overrides selects nothing. -/
lemma checkIsRowSelected_pristine_none (s : SelectionState) (id : String)
    (i : Int) (hm : s.mode = .NONE)
    (h1 : s.overrides.includedIds = ∅) (h2 : s.overrides.excludedIds = ∅)
    (h3 : s.overrides.includedIndices = ∅)
    (h4 : s.overrides.excludedIndices = ∅) :
    checkIsRowSelected s id i = false := by
  simp [checkIsRowSelected, hm, h1, h2, h3, h4]

/-- A single toggle is the page-row step applied to the flipped membership
verdict, together with the NONE-to-EXPLICIT mode promotion. -/
lemma selectionReducer_toggle_eq_step (s : SelectionState) (id : String)
    (i : Int) :
    selectionReducer s (.TOGGLE_ROW id i) =
      { s with
        mode :=
          if s.mode = .NONE ∧ checkIsRowSelected s id i = false then
            SelectionMode.EXPLICIT
          else s.mode
        overrides :=
          (syncRowStep s (!checkIsRowSelected s id i)
            ⟨s.overrides, s.indexToIdCache, s.idToIndexCache⟩
            (id, i)).overrides
        indexToIdCache :=
          (syncRowStep s (!checkIsRowSelected s id i)
            ⟨s.overrides, s.indexToIdCache, s.idToIndexCache⟩
            (id, i)).indexToIdCache
        idToIndexCache :=
          (syncRowStep s (!checkIsRowSelected s id i)
            ⟨s.overrides, s.indexToIdCache, s.idToIndexCache⟩
            (id, i)).idToIndexCache } := by
  cases hsel : checkIsRowSelected s id i <;>
    cases hb : wouldBaseModeSelect s i <;>
    simp [selectionReducer, syncRowStep, hsel, hb]

/-- Every reducer step preserves the inductive invariant. -/
lemma goodState_step (s : SelectionState) (a : SelectionAction)
    (hg : GoodState s) : GoodState (selectionReducer s a) := by
  obtain ⟨hExcl, hNone, hAll, hDisj1, hDisj2⟩ := hg
  cases a with
  | TOGGLE_ROW id i =>
    rw [selectionReducer_toggle_eq_step]
    refine ⟨?_, ?_, ?_, ?_, ?_⟩
    · intro h
      by_cases hc : s.mode = .NONE ∧ checkIsRowSelected s id i = false
      · have he := hExcl (Or.inl hc.1)
        exact syncRowStep_excl_empty s _ _ (id, i) (by simp [hc.2]) he.1 he.2
      · simp only [if_neg hc] at h
        have he := hExcl h
        exact syncRowStep_excl_empty s _ _ (id, i)
          (Or.inr (wouldBaseModeSelect_none_explicit s h i)) he.1 he.2
    · intro h
      by_cases hc : s.mode = .NONE ∧ checkIsRowSelected s id i = false
      · simp only [if_pos hc] at h
        exact absurd h (by simp)
      · simp only [if_neg hc] at h
        exfalso
        have hn := hNone h
        have he := hExcl (Or.inl h)
        have : checkIsRowSelected s id i = false :=
          checkIsRowSelected_pristine_none s id i h hn.1 he.1 hn.2.1 he.2
        exact hc ⟨h, this⟩
    · intro h
      by_cases hc : s.mode = .NONE ∧ checkIsRowSelected s id i = false
      · simp only [if_pos hc] at h
        exact absurd h (by simp)
      · simp only [if_neg hc] at h
        have hi := hAll h
        refine syncRowStep_incl_empty s _ _ (id, i) ?_ hi.1 hi.2
        cases hsel : checkIsRowSelected s id i
        · exact Or.inr (wouldBaseModeSelect_all s h i)
        · simp
    · exact (syncRowStep_disjoint s _ _ (id, i) hDisj1 hDisj2).1
    · exact (syncRowStep_disjoint s _ _ (id, i) hDisj1 hDisj2).2
  | SELECT_ALL_PAGE rows =>
    simp only [selectionReducer]
    refine ⟨?_, ?_, ?_, ?_, ?_⟩
    · intro h
      have hsm : s.mode = .NONE ∨ s.mode = .EXPLICIT := by
        by_cases hc : s.mode = .NONE
        · exact Or.inl hc
        · simpa [hc] using h
      have he := hExcl hsm
      exact fold_excl_empty s true rows _ (Or.inl rfl) he.1 he.2
    · intro h
      by_cases hc : s.mode = .NONE <;> simp [hc] at h
    · intro h
      have hsm : s.mode = .ALL := by
        by_cases hc : s.mode = .NONE
        · simp [hc] at h
        · simpa [hc] using h
      have hi := hAll hsm
      exact fold_incl_empty s true rows _ (Or.inr hsm) hi.1 hi.2
    · exact (fold_disjoint s true rows _ hDisj1 hDisj2).1
    · exact (fold_disjoint s true rows _ hDisj1 hDisj2).2
  | DESELECT_ALL_PAGE rows =>
    simp only [selectionReducer]
    refine ⟨?_, ?_, ?_, ?_, ?_⟩
    · intro h
      have he := hExcl h
      exact fold_excl_empty s false rows _ (Or.inr h) he.1 he.2
    · intro h
      have hn := hNone h
      have hi := fold_incl_empty s false rows
        ⟨s.overrides, s.indexToIdCache, s.idToIndexCache⟩
        (Or.inl rfl) hn.1 hn.2.1
      exact ⟨hi.1, hi.2, hn.2.2⟩
    · intro h
      have hi := hAll h
      exact fold_incl_empty s false rows _ (Or.inl rfl) hi.1 hi.2
    · exact (fold_disjoint s false rows _ hDisj1 hDisj2).1
    · exact (fold_disjoint s false rows _ hDisj1 hDisj2).2
  | SYNC_PAGE_SELECTION rows sel =>
    simp only [selectionReducer]
    refine ⟨?_, ?_, ?_, ?_, ?_⟩
    · intro h
      have hsm : s.mode = .NONE ∨ s.mode = .EXPLICIT := by
        by_cases hc : s.mode = .NONE ∧ sel = true
        · exact Or.inl hc.1
        · simpa [hc] using h
      have he := hExcl hsm
      refine fold_excl_empty s sel rows _ ?_ he.1 he.2
      cases sel
      · exact Or.inr hsm
      · exact Or.inl rfl
    · intro h
      by_cases hc : s.mode = .NONE ∧ sel = true
      · simp [hc] at h
      · simp only [if_neg hc] at h
        have hsel : sel = false := by
          cases sel
          · rfl
          · exact absurd ⟨h, rfl⟩ hc
        have hn := hNone h
        have hi := fold_incl_empty s sel rows
          ⟨s.overrides, s.indexToIdCache, s.idToIndexCache⟩
          (Or.inl hsel) hn.1 hn.2.1
        exact ⟨hi.1, hi.2, hn.2.2⟩
    · intro h
      have hsm : s.mode = .ALL := by
        by_cases hc : s.mode = .NONE ∧ sel = true
        · simp [hc] at h
        · simpa [hc] using h
      have hi := hAll hsm
      refine fold_incl_empty s sel rows _ ?_ hi.1 hi.2
      cases sel
      · exact Or.inl rfl
      · exact Or.inr hsm
    · exact (fold_disjoint s sel rows _ hDisj1 hDisj2).1
    · exact (fold_disjoint s sel rows _ hDisj1 hDisj2).2
  | BULK_SELECT count =>
    by_cases hc : min (max 0 count) s.totalRecords = 0 <;>
      simp [selectionReducer, hc, GoodState, createFreshOverrides]
  | SELECT_ALL =>
    simp [selectionReducer, GoodState, createFreshOverrides]
  | CLEAR_SELECTION =>
    simp [selectionReducer, GoodState, createFreshOverrides]
  | UPDATE_TOTAL_RECORDS total =>
    refine ⟨fun h => hExcl h, ?_, fun h => hAll h, hDisj1, hDisj2⟩
    intro h
    have hmode : s.mode = SelectionMode.NONE := h
    have hn := hNone hmode
    refine ⟨hn.1, hn.2.1, ?_⟩
    show (if s.mode = .RANGE then min s.rangeCount total
      else s.rangeCount) = 0
    rw [if_neg (by rw [hmode]; decide)]
    exact hn.2.2

/-- The initial state satisfies the inductive invariant. -/
lemma goodState_initial (t : Int) : GoodState (createInitialState t) := by
  simp [GoodState, createInitialState]

/-- Every reachable state satisfies the inductive invariant. -/
lemma reachable_goodState {s : SelectionState} (h : Reachable s) :
    GoodState s := by
  obtain ⟨t, actions, rfl⟩ := h
  exact foldl_preserve selectionReducer GoodState goodState_step actions _
    (goodState_initial t)

/-! ## C4 -/

/-- C4 (amended): in every reachable state no id is in both includedIds and
excludedIds and no index is in both includedIndices and excludedIndices.
The further part of the original claim — that once an (id, index) pair has
been cached the id-keyed and index-keyed overrides for that record agree —
fails; see the counterexample. -/
theorem reachable_overrides_disjoint (s : SelectionState)
    (h : Reachable s) :
    s.overrides.includedIds ∩ s.overrides.excludedIds = ∅ ∧
      s.overrides.includedIndices ∩ s.overrides.excludedIndices = ∅ := by
  have hg := reachable_goodState h
  exact ⟨hg.2.2.2.1, hg.2.2.2.2⟩

theorem reachable_overrides_disjoint_witness :
    cexPairState.overrides.includedIds ∩ cexPairState.overrides.excludedIds
        = ∅ ∧
      cexPairState.overrides.includedIndices ∩
        cexPairState.overrides.excludedIndices = ∅ :=
  reachable_overrides_disjoint cexPairState ⟨10, _, rfl⟩

/-- C4 counterexample: in the reachable state obtained by BULK_SELECT(5),
TOGGLE("a", 2), UPDATE_TOTAL(1), TOGGLE("x", 2), the id "a" is excluded
while its cached index 2 is an included index, so the id-keyed and
index-keyed overrides of a record whose (id, index) pair sits in the
identity cache disagree. -/
theorem cached_pair_overrides_disagree_cex :
    Reachable cexPairState ∧
      "a" ∈ cexPairState.overrides.excludedIds ∧
      cexPairState.idToIndexCache "a" = some 2 ∧
      (2 : Int) ∈ cexPairState.overrides.includedIndices ∧
      "a" ∉ cexPairState.overrides.includedIds :=
  ⟨⟨10, _, rfl⟩, by decide, by decide, by decide, by decide⟩

/-! ## C10 -/

/-- C10: in every reachable state, mode NONE implies that all four override
sets are empty and the range count is zero. -/
theorem none_mode_pristine (s : SelectionState) (h : Reachable s)
    (hm : s.mode = .NONE) :
    s.overrides.includedIds = ∅ ∧ s.overrides.excludedIds = ∅ ∧
      s.overrides.includedIndices = ∅ ∧ s.overrides.excludedIndices = ∅ ∧
      s.rangeCount = 0 := by
  have hg := reachable_goodState h
  obtain ⟨he1, he2⟩ := hg.1 (Or.inl hm)
  obtain ⟨hi1, hi2, hrc⟩ := hg.2.1 hm
  exact ⟨hi1, he1, hi2, he2, hrc⟩

theorem none_mode_pristine_witness :
    (applyActions (createInitialState 7)
        [.SELECT_ALL, .CLEAR_SELECTION]).overrides.includedIds = ∅ ∧
      (applyActions (createInitialState 7)
        [.SELECT_ALL, .CLEAR_SELECTION]).overrides.excludedIds = ∅ ∧
      (applyActions (createInitialState 7)
        [.SELECT_ALL, .CLEAR_SELECTION]).overrides.includedIndices = ∅ ∧
      (applyActions (createInitialState 7)
        [.SELECT_ALL, .CLEAR_SELECTION]).overrides.excludedIndices = ∅ ∧
      (applyActions (createInitialState 7)
        [.SELECT_ALL, .CLEAR_SELECTION]).rangeCount = 0 :=
  none_mode_pristine _ ⟨7, _, rfl⟩ (by decide)

/-! ## C6 -/

/-- The count of a state right after a bulk selection, as a function of the
clamped count. -/
lemma calculateSelectedCount_bulk (s : SelectionState) (count : Int) :
    calculateSelectedCount (selectionReducer s (.BULK_SELECT count)) =
      if min (max 0 count) s.totalRecords = 0 then 0
      else
        max 0 (min (min (max 0 count) s.totalRecords) s.totalRecords) := by
  by_cases hc : min (max 0 count) s.totalRecords = 0 <;>
    simp [selectionReducer, hc, calculateSelectedCount, resolvedIndices,
      unknownIds, createFreshOverrides, wouldBaseModeSelect]

/-- C6 (amended): on every state with a non-negative totalRecords — a
negative total is reachable through UPDATE_TOTAL and then breaks the clamp,
see the counterexample — BULK_SELECT clamps the count into
[0, totalRecords]; a clamped count of zero yields mode NONE with range count
zero and fresh override sets, a positive clamped count yields mode RANGE
with the clamped range count and fresh override sets, and a count above
totalRecords yields a selected count equal to totalRecords. -/
theorem bulkSelect_clamp (s : SelectionState) (count : Int)
    (htot : 0 ≤ s.totalRecords) :
    (0 ≤ min (max 0 count) s.totalRecords ∧
      min (max 0 count) s.totalRecords ≤ s.totalRecords) ∧
    (min (max 0 count) s.totalRecords = 0 →
      (selectionReducer s (.BULK_SELECT count)).mode = .NONE ∧
      (selectionReducer s (.BULK_SELECT count)).rangeCount = 0 ∧
      (selectionReducer s (.BULK_SELECT count)).overrides
        = createFreshOverrides) ∧
    (0 < min (max 0 count) s.totalRecords →
      (selectionReducer s (.BULK_SELECT count)).mode = .RANGE ∧
      (selectionReducer s (.BULK_SELECT count)).rangeCount
        = min (max 0 count) s.totalRecords ∧
      (selectionReducer s (.BULK_SELECT count)).overrides
        = createFreshOverrides) ∧
    (s.totalRecords < count →
      calculateSelectedCount (selectionReducer s (.BULK_SELECT count))
        = s.totalRecords) := by
  refine ⟨⟨le_min (le_max_left 0 count) htot, min_le_right _ _⟩, ?_, ?_, ?_⟩
  · intro h
    simp [selectionReducer, h]
  · intro h
    have hne : ¬ min (max 0 count) s.totalRecords = 0 := by omega
    simp [selectionReducer, hne]
  · intro hcount
    rw [calculateSelectedCount_bulk]
    have hmax : max 0 count = count := max_eq_right (by omega)
    have hmin : min (max 0 count) s.totalRecords = s.totalRecords := by
      rw [hmax]
      exact min_eq_right (le_of_lt hcount)
    rw [hmin]
    split_ifs with hc
    · omega
    · rw [min_self]
      omega

theorem bulkSelect_clamp_witness :
    (0 : Int) < min (max 0 50) (createInitialState 10).totalRecords ∧
      (selectionReducer (createInitialState 10) (.BULK_SELECT 50)).mode
        = .RANGE ∧
      calculateSelectedCount
          (selectionReducer (createInitialState 10) (.BULK_SELECT 50))
        = (createInitialState 10).totalRecords := by
  have h := bulkSelect_clamp (createInitialState 10) 50 (by decide)
  exact ⟨by decide, (h.2.2.1 (by decide)).1, h.2.2.2 (by decide)⟩

/-- C6 counterexample: after UPDATE_TOTAL(-1) the totalRecords is -1; the
claim quantifies over every state, yet BULK_SELECT(5) on this reachable
state produces mode RANGE with range count -1 — the clamp lands outside
[0, totalRecords] and outside the claimed zero/positive dichotomy — and a
selected count of 0 different from totalRecords although 5 exceeds the
total. -/
theorem bulkSelect_clamp_cex :
    Reachable cexNegTotalState ∧
      cexNegTotalPre.totalRecords < 5 ∧
      cexNegTotalState = selectionReducer cexNegTotalPre (.BULK_SELECT 5) ∧
      cexNegTotalState.mode = .RANGE ∧
      cexNegTotalState.rangeCount = -1 ∧
      calculateSelectedCount cexNegTotalState
        ≠ cexNegTotalState.totalRecords :=
  ⟨⟨10, [.UPDATE_TOTAL_RECORDS (-1), .BULK_SELECT 5], by rfl⟩, by decide,
    rfl, by decide, by decide, by decide⟩

/-! ## C7 -/

/-- The conditional emission of a non-empty override set in the descriptor
resolves, under a default of the empty set, to the set itself. -/
lemma emitted_set_getD {α : Type} [DecidableEq α] (t : Finset α) :
    (if t.Nonempty then some t else none).getD ∅ = t := by
  by_cases h : t.Nonempty
  · simp [h]
  · simp [h, Finset.not_nonempty_iff_eq_empty.1 h]

/-- C7 (amended): for every reachable state, reconstructing membership from
the descriptor alone agrees with the full membership query on every record
that is not affected by the fields the descriptor drops — under RANGE the
record must not carry an included override (the descriptor omits included
overrides), under ALL an excluded index must come with its excluded id (the
descriptor omits excluded indices), and under EXPLICIT an included index
must come with its included id (the descriptor emits only included ids).
The original unconditional claim fails; see the counterexample. -/
theorem descriptor_roundtrip (s : SelectionState) (id : String) (i : Int)
    (h : Reachable s)
    (h1 : s.mode = .RANGE →
      id ∉ s.overrides.includedIds ∧ i ∉ s.overrides.includedIndices)
    (h2 : s.mode = .ALL →
      i ∈ s.overrides.excludedIndices → id ∈ s.overrides.excludedIds)
    (h3 : s.mode = .EXPLICIT →
      i ∈ s.overrides.includedIndices → id ∈ s.overrides.includedIds) :
    descriptorSelects (getSelectionDescriptor s) id i
      = checkIsRowSelected s id i := by
  have hg := reachable_goodState h
  cases hm : s.mode with
  | NONE =>
    obtain ⟨he1, he2⟩ := hg.1 (Or.inl hm)
    obtain ⟨hi1, hi2, _⟩ := hg.2.1 hm
    simp [descriptorSelects, getSelectionDescriptor, checkIsRowSelected, hm,
      he1, he2, hi1, hi2]
  | EXPLICIT =>
    obtain ⟨he1, he2⟩ := hg.1 (Or.inr hm)
    by_cases hid : id ∈ s.overrides.includedIds
    · simp [descriptorSelects, getSelectionDescriptor, checkIsRowSelected,
        hm, he1, he2, hid]
    · have hidx : i ∉ s.overrides.includedIndices := fun hx =>
        hid (h3 hm hx)
      simp [descriptorSelects, getSelectionDescriptor, checkIsRowSelected,
        hm, he1, he2, hid, hidx]
  | RANGE =>
    obtain ⟨hni, hnx⟩ := h1 hm
    by_cases hid : id ∈ s.overrides.excludedIds
    · simp [descriptorSelects, getSelectionDescriptor, checkIsRowSelected,
        hm, hid, emitted_set_getD]
    · by_cases hix : i ∈ s.overrides.excludedIndices
      · simp [descriptorSelects, getSelectionDescriptor, checkIsRowSelected,
          hm, hid, hix, hni, emitted_set_getD]
      · simp [descriptorSelects, getSelectionDescriptor, checkIsRowSelected,
          hm, hid, hix, hni, hnx, emitted_set_getD]
  | ALL =>
    obtain ⟨hi1, hi2⟩ := hg.2.2.1 hm
    by_cases hid : id ∈ s.overrides.excludedIds
    · simp [descriptorSelects, getSelectionDescriptor, checkIsRowSelected,
        hm, hid, emitted_set_getD]
    · have hix : i ∉ s.overrides.excludedIndices := fun hx =>
        hid (h2 hm hx)
      simp [descriptorSelects, getSelectionDescriptor, checkIsRowSelected,
        hm, hid, hix, hi1, hi2, emitted_set_getD]

theorem descriptor_roundtrip_witness :
    descriptorSelects (getSelectionDescriptor witScenarioA) "7" 6
      = checkIsRowSelected witScenarioA "7" 6 :=
  descriptor_roundtrip witScenarioA "7" 6 ⟨1000, _, rfl⟩ (by decide)
    (by decide) (by decide)

/-- C7 counterexample: in the reachable RANGE state obtained by
BULK_SELECT(5) then TOGGLE("a", 7), the record ("a", 7) sits in the
included override sets and in the identity cache and is selected, yet the
descriptor drops included overrides under RANGE, so reconstruction from the
descriptor classifies it as unselected. -/
theorem descriptor_roundtrip_cex :
    Reachable cexDescriptorState ∧
      "a" ∈ cexDescriptorState.overrides.includedIds ∧
      cexDescriptorState.idToIndexCache "a" = some 7 ∧
      checkIsRowSelected cexDescriptorState "a" 7 = true ∧
      descriptorSelects (getSelectionDescriptor cexDescriptorState) "a" 7
        = false :=
  ⟨⟨10, _, rfl⟩, by decide, by decide, by decide, by decide⟩

/-! ## C5 -/

lemma SelectionOverrides.ext2 (a b : SelectionOverrides)
    (h1 : a.includedIds = b.includedIds) (h2 : a.excludedIds = b.excludedIds)
    (h3 : a.includedIndices = b.includedIndices)
    (h4 : a.excludedIndices = b.excludedIndices) : a = b := by
  cases a
  cases b
  cases h1
  cases h2
  cases h3
  cases h4
  rfl

/-- C5 (amended): TOGGLE(id, i) twice in a row, with no other command in
between, always restores the prior isSelected(id, i) value; it restores all
four override sets as well provided the (id, i) override entries are paired
and minimal before the first toggle — the id sits in an included (resp.
excluded) override set exactly when the index does, an included override
only exists when the base mode would not select the index, and an excluded
override only exists when it would.  The unconditional restoration of the
override sets fails on a reachable state; see the counterexample. -/
theorem toggle_double_restores :
    (∀ (s : SelectionState) (id : String) (i : Int),
      checkIsRowSelected
          (selectionReducer (selectionReducer s (.TOGGLE_ROW id i))
            (.TOGGLE_ROW id i)) id i
        = checkIsRowSelected s id i) ∧
    (∀ (s : SelectionState) (id : String) (i : Int),
      (id ∈ s.overrides.includedIds ↔ i ∈ s.overrides.includedIndices) →
      (id ∈ s.overrides.excludedIds ↔ i ∈ s.overrides.excludedIndices) →
      (id ∈ s.overrides.includedIds → wouldBaseModeSelect s i = false) →
      (id ∈ s.overrides.excludedIds → wouldBaseModeSelect s i = true) →
      (selectionReducer (selectionReducer s (.TOGGLE_ROW id i))
          (.TOGGLE_ROW id i)).overrides = s.overrides ∧
        checkIsRowSelected
            (selectionReducer (selectionReducer s (.TOGGLE_ROW id i))
              (.TOGGLE_ROW id i)) id i
          = checkIsRowSelected s id i) := by
  have hflip : ∀ (s : SelectionState) (id : String) (i : Int),
      checkIsRowSelected
          (selectionReducer (selectionReducer s (.TOGGLE_ROW id i))
            (.TOGGLE_ROW id i)) id i
        = checkIsRowSelected s id i := by
    intro s id i
    rw [checkIsRowSelected_toggle, checkIsRowSelected_toggle, Bool.not_not]
  refine ⟨hflip, ?_⟩
  intro s id i hp1 hp2 hp3 hp4
  refine ⟨?_, hflip s id i⟩
  by_cases h2 : id ∈ s.overrides.includedIds
  · have h4 : i ∈ s.overrides.includedIndices := hp1.1 h2
    have hb : wouldBaseModeSelect s i = false := hp3 h2
    by_cases h1 : id ∈ s.overrides.excludedIds
    · exact absurd (hp4 h1) (by simp [hb])
    · have h3 : i ∉ s.overrides.excludedIndices := fun hx => h1 (hp2.2 hx)
      have hsel : checkIsRowSelected s id i = true := by
        simp [checkIsRowSelected, h1, h2]
      have hov1 : (selectionReducer s (.TOGGLE_ROW id i)).overrides =
          ⟨s.overrides.includedIds.erase id, s.overrides.excludedIds,
            s.overrides.includedIndices.erase i,
            s.overrides.excludedIndices⟩ := by
        simp [selectionReducer, hsel, hb]
      have hsel1 : checkIsRowSelected (selectionReducer s (.TOGGLE_ROW id i))
          id i = false := by
        rw [checkIsRowSelected_toggle, hsel]
        rfl
      have hb1 : wouldBaseModeSelect (selectionReducer s (.TOGGLE_ROW id i))
          i = false := by
        rw [wouldBaseModeSelect_toggle]
        exact hb
      generalize hgen : selectionReducer s (.TOGGLE_ROW id i) = s1
        at hov1 hsel1 hb1 ⊢
      have hov2 : (selectionReducer s1 (.TOGGLE_ROW id i)).overrides =
          ⟨insert id s1.overrides.includedIds,
            s1.overrides.excludedIds.erase id,
            insert i s1.overrides.includedIndices,
            s1.overrides.excludedIndices.erase i⟩ := by
        simp [selectionReducer, hsel1, hb1]
      rw [hov2, hov1]
      dsimp only
      rw [Finset.insert_erase h2, Finset.erase_eq_of_not_mem h1,
        Finset.insert_erase h4, Finset.erase_eq_of_not_mem h3]
  · have h4 : i ∉ s.overrides.includedIndices := fun hx => h2 (hp1.2 hx)
    by_cases h1 : id ∈ s.overrides.excludedIds
    · have h3 : i ∈ s.overrides.excludedIndices := hp2.1 h1
      have hb : wouldBaseModeSelect s i = true := hp4 h1
      have hsel : checkIsRowSelected s id i = false := by
        simp [checkIsRowSelected, h1]
      have hov1 : (selectionReducer s (.TOGGLE_ROW id i)).overrides =
          ⟨s.overrides.includedIds, s.overrides.excludedIds.erase id,
            s.overrides.includedIndices,
            s.overrides.excludedIndices.erase i⟩ := by
        simp [selectionReducer, hsel, hb]
      have hsel1 : checkIsRowSelected (selectionReducer s (.TOGGLE_ROW id i))
          id i = true := by
        rw [checkIsRowSelected_toggle, hsel]
        rfl
      have hb1 : wouldBaseModeSelect (selectionReducer s (.TOGGLE_ROW id i))
          i = true := by
        rw [wouldBaseModeSelect_toggle]
        exact hb
      generalize hgen : selectionReducer s (.TOGGLE_ROW id i) = s1
        at hov1 hsel1 hb1 ⊢
      have hov2 : (selectionReducer s1 (.TOGGLE_ROW id i)).overrides =
          ⟨s1.overrides.includedIds.erase id,
            insert id s1.overrides.excludedIds,
            s1.overrides.includedIndices.erase i,
            insert i s1.overrides.excludedIndices⟩ := by
        simp [selectionReducer, hsel1, hb1]
      rw [hov2, hov1]
      dsimp only
      rw [Finset.erase_eq_of_not_mem h2, Finset.insert_erase h1,
        Finset.erase_eq_of_not_mem h4, Finset.insert_erase h3]
    · have h3 : i ∉ s.overrides.excludedIndices := fun hx => h1 (hp2.2 hx)
      have hsel : checkIsRowSelected s id i = wouldBaseModeSelect s i := by
        cases hm : s.mode <;>
          simp [checkIsRowSelected, wouldBaseModeSelect, hm, h1, h2, h3, h4]
      cases hb : wouldBaseModeSelect s i
      · have hself : checkIsRowSelected s id i = false := by rw [hsel, hb]
        have hov1 : (selectionReducer s (.TOGGLE_ROW id i)).overrides =
            ⟨insert id s.overrides.includedIds,
              s.overrides.excludedIds.erase id,
              insert i s.overrides.includedIndices,
              s.overrides.excludedIndices.erase i⟩ := by
          simp [selectionReducer, hself, hb]
        have hsel1 : checkIsRowSelected
            (selectionReducer s (.TOGGLE_ROW id i)) id i = true := by
          rw [checkIsRowSelected_toggle, hself]
          rfl
        have hb1 : wouldBaseModeSelect
            (selectionReducer s (.TOGGLE_ROW id i)) i = false := by
          rw [wouldBaseModeSelect_toggle]
          exact hb
        generalize hgen : selectionReducer s (.TOGGLE_ROW id i) = s1
          at hov1 hsel1 hb1 ⊢
        have hov2 : (selectionReducer s1 (.TOGGLE_ROW id i)).overrides =
            ⟨s1.overrides.includedIds.erase id, s1.overrides.excludedIds,
              s1.overrides.includedIndices.erase i,
              s1.overrides.excludedIndices⟩ := by
          simp [selectionReducer, hsel1, hb1]
        rw [hov2, hov1]
        dsimp only
        rw [Finset.erase_insert h2, Finset.erase_eq_of_not_mem h1,
          Finset.erase_insert h4, Finset.erase_eq_of_not_mem h3]
      · have hself : checkIsRowSelected s id i = true := by rw [hsel, hb]
        have hov1 : (selectionReducer s (.TOGGLE_ROW id i)).overrides =
            ⟨s.overrides.includedIds.erase id,
              insert id s.overrides.excludedIds,
              s.overrides.includedIndices.erase i,
              insert i s.overrides.excludedIndices⟩ := by
          simp [selectionReducer, hself, hb]
        have hsel1 : checkIsRowSelected
            (selectionReducer s (.TOGGLE_ROW id i)) id i = false := by
          rw [checkIsRowSelected_toggle, hself]
          rfl
        have hb1 : wouldBaseModeSelect
            (selectionReducer s (.TOGGLE_ROW id i)) i = true := by
          rw [wouldBaseModeSelect_toggle]
          exact hb
        generalize hgen : selectionReducer s (.TOGGLE_ROW id i) = s1
          at hov1 hsel1 hb1 ⊢
        have hov2 : (selectionReducer s1 (.TOGGLE_ROW id i)).overrides =
            ⟨s1.overrides.includedIds, s1.overrides.excludedIds.erase id,
              s1.overrides.includedIndices,
              s1.overrides.excludedIndices.erase i⟩ := by
          simp [selectionReducer, hsel1, hb1]
        rw [hov2, hov1]
        dsimp only
        rw [Finset.erase_eq_of_not_mem h2, Finset.erase_insert h1,
          Finset.erase_eq_of_not_mem h4, Finset.erase_insert h3]

theorem toggle_double_restores_witness :
    (selectionReducer (selectionReducer witToggleState
        (.TOGGLE_ROW "a" 0)) (.TOGGLE_ROW "a" 0)).overrides
      = witToggleState.overrides ∧
    checkIsRowSelected (selectionReducer (selectionReducer witToggleState
        (.TOGGLE_ROW "a" 0)) (.TOGGLE_ROW "a" 0)) "a" 0
      = checkIsRowSelected witToggleState "a" 0 :=
  toggle_double_restores.2 witToggleState "a" 0 (by decide) (by decide)
    (by decide) (by decide)

/-- C5 counterexample: in the reachable state obtained by TOGGLE("a", 0)
then TOGGLE("a", 1) — whose included overrides are the index 0 with no
matching id — toggling ("b", 0) twice restores isSelected("b", 0) but not
the override sets: includedIds gains "b". -/
theorem toggle_double_restores_cex :
    Reachable cexToggleBefore ∧
      cexToggleAfter
        = selectionReducer (selectionReducer cexToggleBefore
            (.TOGGLE_ROW "b" 0)) (.TOGGLE_ROW "b" 0) ∧
      checkIsRowSelected cexToggleAfter "b" 0
        = checkIsRowSelected cexToggleBefore "b" 0 ∧
      cexToggleAfter.overrides.includedIds
        ≠ cexToggleBefore.overrides.includedIds :=
  ⟨⟨10, _, rfl⟩, by rfl, by decide, by decide⟩

/-! ## C9 -/

/-- Any message the HTTP-status switch produces starts with the letters
API, Bad, Not, Rat or Ser; in particular the default interpolated message
keeps its fixed first letters. -/
lemma apiErrorMessage_take (a b c : String) :
    ((("API Error: " ++ a) ++ b) ++ c).data.take 3 = ['A', 'P', 'I'] := rfl

/-- C9: fetchArtworks fails exactly when the page is below one, the limit is
outside [1, 100] (both rejected for every network outcome, i.e. before any
request), the request itself fails, the response is not ok, the body fails
to parse, or the parsed body lacks the data or pagination fields; a valid
call with a well-formed body returns the parsed body unchanged; each failure
class carries its own fixed message (the non-ok class carries the status
switch message together with the status code), and the messages of the six
classes are pairwise distinct. -/
theorem fetchArtworks_error_classification :
    (∀ (p l : Int) (o : FetchOutcome),
      (∃ e, fetchArtworks p l o = .error e) ↔
        (p < 1 ∨ l < 1 ∨ 100 < l ∨ fetchFailureCondition o)) ∧
    (∀ (p l st : Int) (stTxt : String) (b : ParsedBody),
      ¬ p < 1 → ¬ l < 1 → ¬ 100 < l → b.data ≠ none → b.pagination ≠ none →
      fetchArtworks p l (.response st true stTxt (.parsed (some b)))
        = .ok b) ∧
    (∀ (p l : Int) (o : FetchOutcome), p < 1 →
      fetchArtworks p l o = .error ⟨pageErrorMessage, none⟩) ∧
    (∀ (p l : Int) (o : FetchOutcome), ¬ p < 1 → (l < 1 ∨ 100 < l) →
      fetchArtworks p l o = .error ⟨limitErrorMessage, none⟩) ∧
    (∀ (p l : Int), ¬ p < 1 → ¬ l < 1 → ¬ 100 < l →
      fetchArtworks p l .networkFailure
        = .error ⟨networkErrorMessage, none⟩) ∧
    (∀ (p l st : Int) (stTxt : String) (body : BodyOutcome),
      ¬ p < 1 → ¬ l < 1 → ¬ 100 < l →
      fetchArtworks p l (.response st false stTxt body)
        = .error ⟨httpErrorMessage st stTxt, some st⟩) ∧
    (∀ (p l st : Int) (stTxt : String), ¬ p < 1 → ¬ l < 1 → ¬ 100 < l →
      fetchArtworks p l (.response st true stTxt .parseFailure)
        = .error ⟨parseErrorMessage, none⟩) ∧
    (∀ (p l st : Int) (stTxt : String) (jb : Option ParsedBody),
      ¬ p < 1 → ¬ l < 1 → ¬ 100 < l →
      (jb = none ∨
        ∃ b, jb = some b ∧ (b.data = none ∨ b.pagination = none)) →
      fetchArtworks p l (.response st true stTxt (.parsed jb))
        = .error ⟨invalidResponseMessage, none⟩) ∧
    (List.Pairwise (fun a b => a ≠ b)
        [pageErrorMessage, limitErrorMessage, networkErrorMessage,
          parseErrorMessage, invalidResponseMessage] ∧
      ∀ (st : Int) (stTxt : String),
        httpErrorMessage st stTxt ∉
          [pageErrorMessage, limitErrorMessage, networkErrorMessage,
            parseErrorMessage, invalidResponseMessage]) := by
  refine ⟨?_, ?_, ?_, ?_, ?_, ?_, ?_, ?_, ?_, ?_⟩
  · intro p l o
    by_cases hp : p < 1
    · simp [fetchArtworks, hp]
    · by_cases hl : l < 1 ∨ 100 < l
      · simp [fetchArtworks, hp, hl]
        tauto
      · cases o with
        | networkFailure =>
          simp [fetchArtworks, fetchFailureCondition, hp, hl]
        | response st ok stTxt body =>
          cases ok
          · simp [fetchArtworks, fetchFailureCondition, hp, hl]
          · cases body with
            | parseFailure =>
              simp [fetchArtworks, fetchFailureCondition, hp, hl]
            | parsed jb =>
              cases jb with
              | none =>
                simp [fetchArtworks, fetchFailureCondition, hp, hl]
              | some b =>
                by_cases hb : b.data = none ∨ b.pagination = none <;>
                  simp [fetchArtworks, fetchFailureCondition, hp, hl, hb]
  · intro p l st stTxt b hp hl1 hl2 hd hpg
    have hb : ¬ (b.data = none ∨ b.pagination = none) := by
      simp [hd, hpg]
    simp [fetchArtworks, hp, hl1, hl2, hb]
  · intro p l o hp
    simp [fetchArtworks, hp]
  · intro p l o hp hl
    simp [fetchArtworks, hp, hl]
  · intro p l hp hl1 hl2
    simp [fetchArtworks, hp, hl1, hl2]
  · intro p l st stTxt body hp hl1 hl2
    simp [fetchArtworks, hp, hl1, hl2]
  · intro p l st stTxt hp hl1 hl2
    simp [fetchArtworks, hp, hl1, hl2]
  · intro p l st stTxt jb hp hl1 hl2 hjb
    rcases hjb with rfl | ⟨b, rfl, hb⟩
    · simp [fetchArtworks, hp, hl1, hl2]
    · simp [fetchArtworks, hp, hl1, hl2, hb]
  · decide
  · intro st stTxt
    unfold httpErrorMessage
    dsimp only
    split_ifs <;>
      first
        | decide
        | (simp only [List.mem_cons, List.not_mem_nil, or_false]
           push_neg
           refine ⟨?_, ?_, ?_, ?_, ?_⟩ <;>
             · intro h
               have hk := congrArg (fun m => m.data.take 3) h
               dsimp only at hk
               rw [apiErrorMessage_take] at hk
               exact absurd hk (by decide))

theorem fetchArtworks_error_classification_witness :
    fetchArtworks 0 12 .networkFailure = .error ⟨pageErrorMessage, none⟩ ∧
      fetchArtworks 1 0 .networkFailure
        = .error ⟨limitErrorMessage, none⟩ ∧
      fetchArtworks 1 12 .networkFailure
        = .error ⟨networkErrorMessage, none⟩ ∧
      fetchArtworks 1 12 (.response 404 false "Not Found" (.parsed none))
        = .error ⟨httpErrorMessage 404 "Not Found", some 404⟩ ∧
      fetchArtworks 1 12 (.response 200 true "" .parseFailure)
        = .error ⟨parseErrorMessage, none⟩ ∧
      fetchArtworks 1 12 (.response 200 true "" (.parsed (some witBody)))
        = .ok witBody := by
  have h := fetchArtworks_error_classification
  exact ⟨h.2.2.1 0 12 _ (by decide),
    h.2.2.2.1 1 0 _ (by decide) (Or.inl (by decide)),
    h.2.2.2.2.1 1 12 (by decide) (by decide) (by decide),
    h.2.2.2.2.2.1 1 12 404 "Not Found" _ (by decide) (by decide) (by decide),
    h.2.2.2.2.2.2.1 1 12 200 "" (by decide) (by decide) (by decide),
    h.2.1 1 12 200 "" witBody (by decide) (by decide) (by decide)
      (by decide) (by decide)⟩

end GrowMeOrganic
